import Mathlib

/-!
Verification of the okayworld relay server core (src/unnamed/part_000, second
revision of server.js, lines 879-2231) against its natural-language spec.

The JavaScript source is shallowly embedded: JS objects used as integer- or
string-keyed maps become association lists, JS numbers holding integral values
become `Int` (with the `|0` int32 coercion made explicit where the source uses
it), `undefined`-able fields become `Option`, thrown exceptions become
`Except JsError`, and `Array.prototype.sort` (stable, per ES2019 and the
node.js runtime the README targets) becomes a stable insertion sort driven by
the source's comparators.  Monotonic-clock timestamps (`performance.now()`)
become `Rat`.  Strings are Lean `String`s; JS UTF-16 code units are modelled by
Unicode scalar values, which agrees on the BMP strings the protocol carries.
-/

namespace Okay

/-! ## Global constants (source lines 1013-1027) -/

def FPS : Int := 30
def PAST_HORIZON_FRAMES : Int := FPS / 2
def FUTURE_HORIZON_FRAMES : Int := FPS * 3 / 2
def MIN_USERNAME_LENGTH : Nat := 3
def MAX_USERNAME_LENGTH : Nat := 16
def MIN_PASSWORD_LENGTH : Nat := 3
def MAX_PASSWORD_LENGTH : Nat := 64
def MAX_USER_CONFIG_LENGTH : Nat := 10000

/-! ## JS coercion helpers -/

/-- JS `x|0`: ToInt32 of an integral number (truncation of non-integral values
is not needed: every `Int` models an integral JS number). -/
def jsOr0 (n : Int) : Int := (n + 2 ^ 31) % 2 ^ 32 - 2 ^ 31

/-- JS `"" + x` for a possibly-undefined string value. -/
def jsToStr : Option String → String
  | some s => s
  | none => "undefined"

/-- JS `(x || "") + ""` for a possibly-undefined string value. -/
def jsStrOrEmpty : Option String → String
  | some s => s
  | none => ""

/-- JS `x|0` for a possibly-undefined integral number (`undefined|0 = 0`). -/
def jsOr0Opt : Option Int → Int
  | some n => jsOr0 n
  | none => 0

/-- JS `<` on two possibly-undefined strings: any comparison against
`undefined` is false. -/
def jsLtStrU : Option String → Option String → Bool
  | some a, some b => a < b
  | _, _ => false

/-- JS `<` on two possibly-undefined integral numbers: any comparison against
`undefined` is false (it yields NaN). -/
def jsLtIntU : Option Int → Option Int → Bool
  | some a, some b => a < b
  | _, _ => false

/-! ## Association-list maps (JS objects used as dictionaries) -/

def alookup [DecidableEq κ] (k : κ) : List (κ × α) → Option α
  | [] => none
  | (k', v) :: rest => if k = k' then some v else alookup k rest

def aset [DecidableEq κ] (k : κ) (v : α) : List (κ × α) → List (κ × α)
  | [] => [(k, v)]
  | (k', v') :: rest => if k = k' then (k, v) :: rest else (k', v') :: aset k v rest

def aerase [DecidableEq κ] (k : κ) : List (κ × α) → List (κ × α)
  | [] => []
  | (k', v') :: rest => if k = k' then rest else (k', v') :: aerase k rest

def akeys (m : List (κ × α)) : List κ := m.map Prod.fst

/-! ## Events and the canonical comparator (source lines 2028-2040)

The source's own header comment (lines 914-917) documents the intended order:
`.k` primary with "c"<"o"<"f"<"d", `.c` secondary as integer, `.s` tertiary
for "o".  The code of `instanceEventComparator`, however, compares `a.u`
(username, present only on connect events) where the comment says `.c`. -/

inductive EventKind where
  | c  -- connect
  | o  -- command
  | f  -- frame input
  | d  -- disconnect
deriving DecidableEq, Repr

/-- Source line 2028: `{"c":0,"o":1,"f":2,"d":3}`. -/
def EVENT_KIND_ORDERING : EventKind → Nat
  | .c => 0
  | .o => 1
  | .f => 2
  | .d => 3

/-- An instance event as stored server-side.  Fields absent for a kind are
`none` (JS `undefined`). -/
structure Event where
  k : EventKind
  f : Int
  c : Int
  u : Option String := none
  d : Option String := none
  i : Option String := none
  o : Option String := none
  a : Option String := none
  s : Option Int := none
deriving DecidableEq, Repr

/-- Source lines 2030-2036.  Note the secondary key reads `.u`, not `.c`. -/
def instanceEventComparator (a b : Event) : Int :=
  let ak := EVENT_KIND_ORDERING a.k
  let bk := EVENT_KIND_ORDERING b.k
  if ak < bk then -1 else if ak > bk then 1 else
  if jsLtStrU a.u b.u then -1 else if jsLtStrU b.u a.u then 1 else
  if jsLtIntU a.s b.s then -1 else if jsLtIntU b.s a.s then 1 else 0

/-- Source lines 2038-2040.  In `advanceHorizonState` it is applied to the
property-name *strings* of the controller-status object, so `<` and `>` are
JS string comparisons: lexicographic by code unit.  Lean's String `<` is by
definition exactly list order on `.data`; it is written on `.data` here so
the kernel can evaluate it on literals. -/
def integerComparator (a b : String) : Int :=
  if a.data < b.data then -1 else if b.data < a.data then 1 else 0

/-! ## `Array.prototype.sort` with a comparator: stable (ES2019). -/

def insertByComp (cmp : α → α → Int) (x : α) : List α → List α
  | [] => [x]
  | y :: ys => if cmp x y ≤ 0 then x :: y :: ys else y :: insertByComp cmp x ys

/-- Stable sort by a JS comparator: an element goes before every later element
it compares `≤ 0` against, and equal elements keep their original order. -/
def sortByComp (cmp : α → α → Int) (l : List α) : List α :=
  l.foldr (insertByComp cmp) []

/-- Ascending numeric order, used for the ECMAScript enumeration order of
integer-like property keys. -/
def intAscComparator (a b : Int) : Int :=
  if a < b then -1 else if b < a then 1 else 0

/-! ## Server data model (header comment, source lines 881-937) -/

/-- A JS exception surfacing out of a handler. -/
inductive JsError where
  | typeError           -- reading a property of undefined
  | referenceError      -- strict-mode use of an undeclared variable
  | invariantViolation  -- the explicit `throw new Error(...)` in the advancer
deriving DecidableEq, Repr

inductive Lifecycle where
  | new
  | inbox
  | live
  | outbox
deriving DecidableEq, Repr

/-- A controller status object: `.u` username, `.i` last known input string.
The source can store `undefined` in either slot; both are only ever used
afterwards as property keys or relayed verbatim, so the JS string coercion
(`undefined` ↦ "undefined") is applied at store time here. -/
structure CStatus where
  u : String
  i : String
deriving DecidableEq, Repr

structure Instance (σ : Type) where
  pastHorizonFrameNumber : Int
  pastHorizonPerfTime : Rat
  pastHorizonState : σ
  pastHorizonControllerStatus : List (Int × CStatus)
  events : List (Int × List Event)
  broadcastControllers : List Int
  suspended : Bool
deriving DecidableEq, Repr

structure Controller where
  id : Int
  remoteAddress : String
  lifecycle : Lifecycle
  username : String := ""
  minFrameNumber : Int := 0
  lastCommandNumber : Int := 0
  commandRateCounters : List (String × Int) := []
  lastFrameInput : Option String := none
  disconnected : Bool := false
deriving DecidableEq, Repr

/-- The mutable server globals relevant to one instance: the instance itself,
the controllers table, and the three username-indexed lifecycle maps (which in
JS hold aliases of the controller objects; here they hold controller ids). -/
structure ServerState (σ : Type) where
  inst : Instance σ
  controllers : List (Int × Controller)
  liveControllers : List (String × Int)
  inboxControllers : List (String × Int)
  outboxControllers : List (String × Int)
deriving DecidableEq, Repr

/-- Source lines 1961-1963. -/
def getPresentFrameNumber (inst : Instance σ) : Int :=
  inst.pastHorizonFrameNumber + PAST_HORIZON_FRAMES

/-- Source lines 1870-1877. -/
def addInstanceEvent (inst : Instance σ) (event : Event) : Instance σ :=
  match alookup event.f inst.events with
  | none => { inst with events := aset event.f [event] inst.events }
  | some bucket => { inst with events := aset event.f (bucket ++ [event]) inst.events }

/-- Source lines 1892-1912: store the event, then fan its JSON form out to the
subscribers.  Socket sends (and caught send failures) do not change the server
state being modelled, so only the store update remains. -/
def broadcastEventToInstance (inst : Instance σ) (event : Event) : Instance σ :=
  addInstanceEvent inst event

/-- Source lines 1914-1934: store the event, echo it only to its sender. -/
def storeAndEchoInstanceEvent (inst : Instance σ) (event : Event) : Instance σ :=
  addInstanceEvent inst event

/-- Source lines 1860-1862. -/
def subscribeControllerToBroadcasts (inst : Instance σ) (cid : Int) : Instance σ :=
  if cid ∈ inst.broadcastControllers then inst
  else { inst with broadcastControllers := inst.broadcastControllers ++ [cid] }

/-- Source lines 1864-1868. -/
def unsubscribeControllerFromBroadcasts (inst : Instance σ) (cid : Int) : Instance σ :=
  { inst with broadcastControllers := inst.broadcastControllers.filter (fun x => x ≠ cid) }

/-! ## Controller lifecycle operations -/

/-- Source lines 1461-1485 (`makeControllerLive`).  `users` maps usernames to
their config strings; `users[controller.username].config` faults if the user
record is missing, and the table lookup of the controller object is a modelling
artifact (callers always hold a live reference). -/
def makeControllerLive (users : List (String × String)) (st : ServerState σ) (cid : Int) :
    Except JsError (ServerState σ) :=
  match alookup cid st.controllers with
  | none => .error .typeError
  | some ctrl =>
    let instanceFrameNow := getPresentFrameNumber st.inst
    let ctrl' := { ctrl with
      lifecycle := .live,
      lastCommandNumber := 0,
      minFrameNumber := instanceFrameNow,
      commandRateCounters := [] }
    match alookup ctrl.username users with
    | none => .error .typeError
    | some cfg =>
      let connectEvent : Event :=
        { k := .c, c := ctrl.id, f := instanceFrameNow, u := some ctrl.username, d := some cfg }
      .ok { st with
        controllers := aset cid ctrl' st.controllers,
        liveControllers := aset ctrl.username cid st.liveControllers,
        inst := subscribeControllerToBroadcasts
          (broadcastEventToInstance st.inst connectEvent) cid }

/-- Source lines 1516-1541 (`disconnectController`). -/
def disconnectController (st : ServerState σ) (cid : Int) : ServerState σ :=
  match alookup cid st.controllers with
  | none => st
  | some ctrl =>
    if ctrl.lifecycle = .live then
      let f0 := getPresentFrameNumber st.inst
      let f := if f0 < ctrl.minFrameNumber then ctrl.minFrameNumber else f0
      let disconnectEvent : Event := { k := .d, c := ctrl.id, f := f }
      let ctrl' := { ctrl with lifecycle := .outbox, disconnected := true }
      { st with
        controllers := aset cid ctrl' st.controllers,
        liveControllers := aerase ctrl.username st.liveControllers,
        outboxControllers := aset ctrl.username cid st.outboxControllers,
        inst := broadcastEventToInstance
          (unsubscribeControllerFromBroadcasts st.inst cid) disconnectEvent }
    else if ctrl.lifecycle = .outbox then
      { st with controllers := aset cid { ctrl with disconnected := true } st.controllers }
    else
      let st₁ :=
        if ctrl.lifecycle = .inbox then
          { st with inboxControllers := aerase ctrl.username st.inboxControllers }
        else st
      { st₁ with controllers := aerase cid st₁.controllers }

/-- Source lines 1488-1500 (`controllerError`): send `{k:"E"}`, close the
socket, disconnect.  The error string itself is recorded by the caller. -/
def controllerErrorStep (st : ServerState σ) (cid : Int) : ServerState σ :=
  disconnectController st cid

/-! ## Inbound frame/command validation and handlers -/

/-- An inbound `f`/`o` message as parsed from JSON.  The `c`/`u` fields model a
controller id or username a client might try to smuggle in; the server never
reads them.  `f` and `s` stand for integral JS numbers (a non-integral or
non-numeric frame value always fails the `message.f !== message.f|0` check and
is outside this model's domain). -/
structure Msg where
  f : Option Int := none
  i : Option String := none
  s : Option Int := none
  o : Option String := none
  a : Option String := none
  c : Option Int := none
  u : Option String := none
deriving DecidableEq, Repr

inductive VRes where
  | err (e : String)
  | silent
  | ok (f : Int)
deriving DecidableEq, Repr

/-- Source lines 1630-1659 (`validateFrameOrCommandMessage`). -/
def validateFrameOrCommandMessage (ctrl : Controller) (inst : Instance σ) (msg : Msg) : VRes :=
  if ctrl.lifecycle ≠ .live then .err "game message sent without a valid login"
  else match msg.f with
  | none => .err "malformed message, no frame number"
  | some f =>
    if f ≠ jsOr0 f then .err "malformed message, non-integer frame number"
    else if jsOr0 f < ctrl.minFrameNumber then .err "out-of-order message"
    else if jsOr0 f > getPresentFrameNumber inst + FUTURE_HORIZON_FRAMES then
      .err "client timestamps are running too fast"
    else if f < inst.pastHorizonFrameNumber then .silent
    else .ok f

/-- Per-playset limits as registered (source lines 1095-1116). -/
structure MsgEnv where
  inputLengthLimit : Nat
  argumentLengthLimit : Nat
  commandRateLimits : List (String × Int)
deriving DecidableEq, Repr

/-- Net effect of one frame/command handler invocation: the new server state,
the `E` error string sent (if any), and the frame/command event appended to the
instance's store and fanned out (if any). -/
structure HandlerResult (σ : Type) where
  st : ServerState σ
  errorSent : Option String
  storedEvent : Option Event
deriving DecidableEq, Repr

/-- Source lines 1543-1570 (`onFrameMessage`). -/
def onFrameMessage (env : MsgEnv) (st : ServerState σ) (cid : Int) (msg : Msg) :
    HandlerResult σ :=
  match alookup cid st.controllers with
  | none => { st := st, errorSent := none, storedEvent := none }
  | some ctrl =>
    match validateFrameOrCommandMessage ctrl st.inst msg with
    | .err e => { st := controllerErrorStep st cid, errorSent := some e, storedEvent := none }
    | .silent => { st := st, errorSent := none, storedEvent := none }
    | .ok f =>
      let inp := jsToStr msg.i
      if inp.length > env.inputLengthLimit then
        { st := controllerErrorStep st cid,
          errorSent := some "client sent too-large input message", storedEvent := none }
      else
        let ctrl' := { ctrl with
          minFrameNumber := f + 1
          lastCommandNumber := 0
          commandRateCounters := [] }
        let event : Event := { k := .f, c := ctrl.id, f := f, i := some inp }
        if some inp ≠ ctrl.lastFrameInput then
          { st := { st with
              controllers := aset cid { ctrl' with lastFrameInput := some inp } st.controllers,
              inst := broadcastEventToInstance st.inst event },
            errorSent := none, storedEvent := some event }
        else
          { st := { st with
              controllers := aset cid ctrl' st.controllers,
              inst := storeAndEchoInstanceEvent st.inst event },
            errorSent := none, storedEvent := some event }

/-- Source lines 1572-1628 (`onCommandMessage`).  The serial check at lines
1605-1607 issues `controllerError` but does not return, so execution continues
into the event construction below it. -/
def onCommandMessage (env : MsgEnv) (st : ServerState σ) (cid : Int) (msg : Msg) :
    HandlerResult σ :=
  match alookup cid st.controllers with
  | none => { st := st, errorSent := none, storedEvent := none }
  | some ctrl =>
    match validateFrameOrCommandMessage ctrl st.inst msg with
    | .err e => { st := controllerErrorStep st cid, errorSent := some e, storedEvent := none }
    | .silent => { st := st, errorSent := none, storedEvent := none }
    | .ok f =>
      let serial := jsOr0Opt msg.s
      if serial = 0 then
        { st := controllerErrorStep st cid,
          errorSent := some "client sent command message without serial", storedEvent := none }
      else
        let arg := jsStrOrEmpty msg.a
        if arg.length > env.argumentLengthLimit then
          { st := controllerErrorStep st cid,
            errorSent := some "client sent too-large command argument", storedEvent := none }
        else
          let cmd := jsToStr msg.o
          match alookup cmd env.commandRateLimits with
          | none =>
            { st := controllerErrorStep st cid,
              errorSent := some "client sent invalid command for this playset",
              storedEvent := none }
          | some cap =>
            let hitCap : Bool := match alookup cmd ctrl.commandRateCounters with
              | some n => decide (n ≥ cap)
              | none => false
            if hitCap then
              { st := controllerErrorStep st cid,
                errorSent := some "client exceeded command rate limit", storedEvent := none }
            else
              -- frame-window reset mutates the controller object in place
              let ctrl₁ :=
                if f > ctrl.minFrameNumber then
                  { ctrl with
                    minFrameNumber := f
                    lastCommandNumber := 0
                    commandRateCounters := [] }
                else ctrl
              let st₁ := { st with controllers := aset cid ctrl₁ st.controllers }
              let errSent :=
                if serial ≤ ctrl₁.lastCommandNumber then
                  some "client sent out-of-order command message"
                else none
              -- controllerError fires here when errSent is set, and then the
              -- source falls through (no early return)
              let st₂ := if errSent.isSome then controllerErrorStep st₁ cid else st₁
              let ctrl₂ := (alookup cid st₂.controllers).getD ctrl₁
              let event : Event :=
                { k := .o, c := ctrl.id, f := f, o := some cmd, a := some arg, s := some serial }
              let ctrl₃ := { ctrl₂ with
                lastCommandNumber := serial,
                commandRateCounters :=
                  match alookup cmd ctrl₂.commandRateCounters with
                  | some n => aset cmd (n + 1) ctrl₂.commandRateCounters
                  | none => aset cmd 1 ctrl₂.commandRateCounters }
              { st := { st₂ with
                  controllers := aset cid ctrl₃ st₂.controllers,
                  inst := broadcastEventToInstance st₂.inst event },
                errorSent := errSent, storedEvent := some event }

/-! ## The horizon advancer (source lines 2042-2161) -/

/-- The argument records handed to `playset.advanceGameState`. -/
structure ConnectArg where
  c : Int
  u : Option String
  d : Option String
deriving DecidableEq, Repr

structure CommandArg where
  c : Int
  o : Option String
  a : Option String
deriving DecidableEq, Repr

/-- An inputs entry.  Its `.c` is the property-name *string* of the
controller-status object, exactly as the source pushes it. -/
structure InputArg where
  c : String
  i : String
deriving DecidableEq, Repr

/-- The playset's `advanceGameState` capability; opaque to the core. -/
abbrev PlaysetAdvance (σ : Type) :=
  σ → List ConnectArg → List CommandArg → List InputArg → List Int → σ

/-- Models `Object.getOwnPropertyNames` on an object whose keys are all integer-like:
ECMAScript enumerates array-index keys in ascending numeric order, and each is
a decimal string. -/
def getOwnPropertyNamesNumeric (m : List (Int × CStatus)) : List String :=
  (sortByComp intAscComparator (akeys m)).map (fun n => toString n)

/-- Property lookup by name string on the integer-keyed status object. -/
def statusLookupStr (key : String) : List (Int × CStatus) → Option CStatus
  | [] => none
  | (k, v) :: rest => if toString k = key then some v else statusLookupStr key rest

/-- Source lines 2079-2084: collect the property names of
`pastHorizonControllerStatus`, sort them with `integerComparator` (which, the
keys being strings, compares them as strings), and emit one
`{c, i}` record per name. -/
def buildInputs (status : List (Int × CStatus)) : List InputArg :=
  (sortByComp integerComparator (getOwnPropertyNamesNumeric status)).map
    (fun c => { c := c, i := (statusLookupStr c status).elim "" CStatus.i })

/-- The `for(var i in events)` loop of source lines 2053-2078 over the sorted
bucket: connects are folded into the controller status immediately, commands
and disconnects are collected in order, and a frame input whose controller is
missing from the status throws the explicit invariant-violation error. -/
def processSortedEvents (status : List (Int × CStatus)) (connects : List ConnectArg)
    (commands : List CommandArg) (disconnects : List Int) :
    List Event → Except JsError (List (Int × CStatus) × List ConnectArg ×
      List CommandArg × List Int)
  | [] => .ok (status, connects, commands, disconnects)
  | ev :: rest =>
    match ev.k with
    | .c =>
      processSortedEvents (aset ev.c { u := jsToStr ev.u, i := "" } status)
        (connects ++ [{ c := ev.c, u := ev.u, d := ev.d }]) commands disconnects rest
    | .o =>
      processSortedEvents status connects
        (commands ++ [{ c := ev.c, o := ev.o, a := ev.a }]) disconnects rest
    | .f =>
      match alookup ev.c status with
      | some cs =>
        processSortedEvents (aset ev.c { cs with i := jsToStr ev.i } status)
          connects commands disconnects rest
      | none => .error .invariantViolation
    | .d =>
      processSortedEvents status connects commands (disconnects ++ [ev.c]) rest

/-- The `for(var i in disconnects)` loop of source lines 2087-2098.  For each
disconnect: read the username off the status entry, promote a same-username
INBOX controller to LIVE if one exists, then read `.id` off the OUTBOX record —
which throws a TypeError when no OUTBOX record exists — and delete the OUTBOX
record, the controllers-table entry and the status entry. -/
def processDisconnects (users : List (String × String)) :
    ServerState σ → List Int → Except JsError (ServerState σ)
  | st, [] => .ok st
  | st, c :: rest => do
    match alookup c st.inst.pastHorizonControllerStatus with
    | none => .error .typeError
    | some cs =>
      let username := cs.u
      let st₁ ←
        match alookup username st.inboxControllers with
        | some iid =>
          makeControllerLive users
            { st with inboxControllers := aerase username st.inboxControllers } iid
        | none => .ok st
      match alookup username st₁.outboxControllers with
      | none => .error .typeError
      | some oid =>
        processDisconnects users
          { st₁ with
            outboxControllers := aerase username st₁.outboxControllers,
            controllers := aerase oid st₁.controllers,
            inst := { st₁.inst with
              pastHorizonControllerStatus :=
                aerase c st₁.inst.pastHorizonControllerStatus } }
          rest

/-- Source lines 2042-2161 (`advanceHorizonState`): pop the bucket for the
past-horizon frame, sort it with `instanceEventComparator`, process it, build
the inputs, call the playset, process the disconnects, and increment the
past-horizon frame number.  The trailing `F`-notice fan-out (lines 2101-2158)
only writes to sockets and is not part of the server state modelled here. -/
def advanceHorizonState (users : List (String × String)) (padv : PlaysetAdvance σ)
    (st : ServerState σ) : Except JsError (ServerState σ) := do
  let bucket := (alookup st.inst.pastHorizonFrameNumber st.inst.events).getD []
  let inst₀ := { st.inst with events := aerase st.inst.pastHorizonFrameNumber st.inst.events }
  let sorted := sortByComp instanceEventComparator bucket
  let (status, connects, commands, disconnects) ←
    processSortedEvents st.inst.pastHorizonControllerStatus [] [] [] sorted
  let inputs := buildInputs status
  let state' := padv inst₀.pastHorizonState connects commands inputs disconnects
  let st₁ := { st with inst :=
    { inst₀ with pastHorizonControllerStatus := status, pastHorizonState := state' } }
  let st₂ ← processDisconnects users st₁ disconnects
  .ok { st₂ with inst :=
    { st₂.inst with pastHorizonFrameNumber := st₂.inst.pastHorizonFrameNumber + 1 } }

/-! ## Snapshot load (source lines 1184-1241) and suspension -/

/-- The per-instance part of the persisted server state, already through the
playset deserializer. -/
structure InstanceSnapshot (σ : Type) where
  state : σ
  controllerStatus : List (Int × CStatus)
deriving DecidableEq, Repr

/-- One instance as rebuilt by `loadServerState` (source lines 1225-1240):
past horizon reset to frame 1, and a Disconnect event at frame 1 pushed for
every stored controller (enumerated in ascending numeric key order), since the
stored controllers are not actually connected any more.  The perf-time formula
transcribes the source's `PAST_HORIZON_FRAMES*FPS/1000` literally. -/
def loadInstance (now : Rat) (snap : InstanceSnapshot σ) : Instance σ :=
  { pastHorizonFrameNumber := 1
    pastHorizonState := snap.state
    pastHorizonPerfTime := now - (PAST_HORIZON_FRAMES : Rat) * (FPS : Rat) / 1000
    pastHorizonControllerStatus := snap.controllerStatus
    events := [(1, (sortByComp intAscComparator (akeys snap.controllerStatus)).map
      (fun c => { k := .d, c := jsOr0 c, f := 1 }))]
    broadcastControllers := []
    suspended := true }

/-- The whole rebuilt server state for one instance: the controllers table and
all three lifecycle maps start empty. -/
def loadedServerState (now : Rat) (snap : InstanceSnapshot σ) : ServerState σ :=
  { inst := loadInstance now snap
    controllers := []
    liveControllers := []
    inboxControllers := []
    outboxControllers := [] }

/-- Source lines 1977-1986 (`unsuspendInstance`).  `scheduleAdvance` only arms
a timer and does not change the fields modelled here. -/
def unsuspendInstance (now : Rat) (inst : Instance σ) : Instance σ :=
  if inst.suspended then
    let freshHorizon := now - (PAST_HORIZON_FRAMES : Rat) * 1000 / (FPS : Rat)
    { inst with
      suspended := false
      pastHorizonPerfTime :=
        if freshHorizon > inst.pastHorizonPerfTime then freshHorizon
        else inst.pastHorizonPerfTime }
  else inst

/-! ## Self-serve user creation (source lines 1699-1777) -/

structure UserRec where
  username : String
  password : String
  config : String
  admin : Bool
  selfServeAddress : Option String := none
deriving DecidableEq, Repr

/-- A message actually written to an API connection's socket before it
closed. -/
inductive OutMsg where
  | E (e : String)
  | D (d : String)
deriving DecidableEq, Repr

/-- A `selfServeCreateUser` message.  `u` is already string-coerced; `p` is
kept raw because `validatePassword` checks its runtime type; the source reads
the requested config from `message.c`. -/
structure ApiMsg where
  u : String
  p : Option String := none
  c : Option String := none
  d : Option String := none
deriving DecidableEq, Repr

structure ApiConfig where
  selfServeUserLimit : Option Int := none
deriving DecidableEq, Repr

structure CreateOutcome where
  delivered : List OutMsg
  users : List (String × UserRec)
  selfServeUserCounts : List (String × Int)
deriving DecidableEq, Repr

/-- The character test of source lines 1709-1714. -/
def usernameCharBad (code : Nat) : Bool :=
  (code < 65 || code > 90) && (code < 97 || code > 122) && (code < 48 || code > 57)

def usernameDigit (code : Nat) : Bool := 48 ≤ code && code ≤ 57

def validateUsernameChars : Nat → List Char → Option String
  | _, [] => none
  | i, ch :: rest =>
    let code := ch.toNat
    if usernameCharBad code then some "usernames must be ASCII alphanumeric"
    else if i == 0 && usernameDigit code then some "usernames may not start with a number"
    else validateUsernameChars (i + 1) rest

/-- Source lines 1699-1721 (`validateUsername`); yields the error issued, if
any (the too-long message says "too short" in the source too). -/
def validateUsername (username : String) : Option String :=
  if username.length < MIN_USERNAME_LENGTH then
    some ("username too short, minimum " ++ toString MIN_USERNAME_LENGTH)
  else if username.length > MAX_USERNAME_LENGTH then
    some ("username too short, minimum " ++ toString MAX_USERNAME_LENGTH)
  else validateUsernameChars 0 username.data

/-- Source lines 1723-1738 (`validatePassword`). -/
def validatePassword : Option String → Option String
  | none => some "malformed password data (not a Unicode string)"
  | some p =>
    if p.length < MIN_PASSWORD_LENGTH then
      some ("password too short, minimum " ++ toString MIN_PASSWORD_LENGTH)
    else if p.length > MAX_PASSWORD_LENGTH then
      some ("password too short, minimum " ++ toString MAX_PASSWORD_LENGTH)
    else none

/-- Source lines 1748-1777 (`onCreateUserMessage`).  `mkHash` stands for
`makePasswordHash` (salted crypto, treated as an oracle).  A too-long config
hits `validateUserConfigLength`, whose body references the undeclared
`controller` binding and so throws a strict-mode ReferenceError.  The two
mid-function `controllerError` calls lack an early return: the source then
creates the user record, bumps the per-address count, and attempts
`controllerDone` regardless.  E/D messages are delivered only while the
socket is still open; `controllerError` and `controllerDone` both close it. -/
def onCreateUserMessage (mkHash : String → String) (cfg : ApiConfig)
    (users : List (String × UserRec)) (counts : List (String × Int))
    (remoteAddress : String) (msg : ApiMsg) : Except JsError CreateOutcome :=
  let usernameWanted := msg.u
  match validateUsername usernameWanted with
  | some e => .ok { delivered := [.E e], users := users, selfServeUserCounts := counts }
  | none =>
  match validatePassword msg.p with
  | some e => .ok { delivered := [.E e], users := users, selfServeUserCounts := counts }
  | none =>
  let passwordWanted := jsStrOrEmpty msg.p
  let configWanted := jsStrOrEmpty msg.c
  if configWanted.length > MAX_USER_CONFIG_LENGTH then .error .referenceError
  else
    let existingCount := (alookup remoteAddress counts).getD 0
    let authFailed : Bool :=
      match cfg.selfServeUserLimit with
      | none => true
      | some lim => decide (existingCount ≥ lim)
    let nameTaken : Bool := (alookup usernameWanted users).isSome
    let errs : List OutMsg :=
      if authFailed then [.E "you are not authorized for self-serve user creation"]
      else if nameTaken then [.E "username already in use"]
      else []
    let socketStillOpen := !authFailed && !nameTaken
    let newUser : UserRec :=
      { username := usernameWanted
        password := mkHash passwordWanted
        config := configWanted
        admin := false
        selfServeAddress := some remoteAddress }
    .ok { delivered := errs ++ (if socketStillOpen then [.D "user created"] else [])
          users := aset usernameWanted newUser users
          selfServeUserCounts := aset remoteAddress (existingCount + 1) counts }

/-! ## Default structural game-state hash (source lines 2163-2227) -/

/-- A JS value as seen by `defaultGameStateHash`.  Integral numbers stand for
the JS numbers JSON round-trips produce; `jnegzero` is the value `-0`;
`jother` carries the string a symbol/function/host object's `toString`
yields. -/
inductive JSVal where
  | jnull
  | jundef
  | jbool (b : Bool)
  | jint (n : Int)
  | jnegzero
  | jstr (s : String)
  | jarr (elems : List JSVal)
  | jobj (fields : List (String × JSVal))
  | jother (sr : String)

/-- Source lines 2164-2166. -/
def combine (a b : Nat) : Nat := (a * 65537 + b * 8191 + 127) % 2147483647

/-- Source lines 2183-2189 (`recurseString`): fold the character codes, then a
300 suffix.  UTF-16 code units are modelled by scalar values (they agree on
the BMP). -/
def recurseString (key : String) : Nat :=
  combine (key.data.foldl (fun hash ch => combine hash ch.toNat) 0) 300

def insertPairByKey (p : String × Nat) : List (String × Nat) → List (String × Nat)
  | [] => [p]
  | q :: qs => if p.1 ≤ q.1 then p :: q :: qs else q :: insertPairByKey p qs

/-- Models `keys.sort()` with the default comparator: lexicographic on the name
strings.  The names are carried here together with the already-computed hash
of their value: own property names are distinct, so sorting the pairs by name
and then folding equals the source's sort-the-names-then-look-up. -/
def sortPairsByKey : List (String × Nat) → List (String × Nat)
  | [] => []
  | p :: rest => insertPairByKey p (sortPairsByKey rest)

/-- Source lines 2167-2181 (`recurseContainer`): iterate the sorted names,
combining each name's string hash and then its value's hash; 200 suffix. -/
def recurseContainer (pairs : List (String × Nat)) : Nat :=
  combine ((sortPairsByKey pairs).foldl
    (fun hash p => combine (combine hash (recurseString p.1)) p.2) 0) 200

/-- Own property pairs of a JS array: the index strings with their element
hashes, plus `length` with the hash of the length as a number. -/
def arrayOwnPairs (elemHashes : List Nat) : List (String × Nat) :=
  (elemHashes.enum.map (fun p => (toString p.1, p.2))) ++
    [("length", combine 106 (recurseString (toString elemHashes.length)))]

mutual
/-- Source lines 2163-2227 (`defaultGameStateHash`). -/
def defaultGameStateHash : JSVal → Nat
  | .jnull => 100
  | .jundef => 101
  | .jbool true => 102
  | .jbool false => 103
  | .jnegzero => combine 106 (recurseString "0")
  | .jint n => combine 106 (recurseString (toString n))
  | .jstr s => combine 107 (recurseString s)
  | .jarr l => combine 105 (recurseContainer (arrayOwnPairs (hashElems l)))
  | .jobj fs => combine 108 (recurseContainer (hashFields fs))
  | .jother r => combine 109 (recurseString r)

def hashElems : List JSVal → List Nat
  | [] => []
  | v :: vs => defaultGameStateHash v :: hashElems vs

def hashFields : List (String × JSVal) → List (String × Nat)
  | [] => []
  | (k, v) :: fs => (k, defaultGameStateHash v) :: hashFields fs
end

/-! The reference definition, transcribed from the spec's words (§6.5 and the
C8 claim): fixed leaf values 100-103, negative zero coerced to zero, type
prefixes 105/106/107/108/109, containers combining the (key-hash, value-hash)
pairs over lexicographically sorted own property names with a 200 suffix,
strings folding character codes with a 300 suffix. -/

/-- Spec: `combine(a, b) = (a*65537 + b*8191 + 127) mod 2147483647`. -/
def specCombine (a b : Nat) : Nat := (a * 65537 + b * 8191 + 127) % 2147483647

/-- Spec: strings fold character codes with suffix 300. -/
def specStringHash (s : String) : Nat :=
  specCombine (s.data.foldl (fun h ch => specCombine h ch.toNat) 0) 300

/-- Spec: containers combine (key-hash, value-hash) pairs over
lexicographically sorted own property names, with suffix 200. -/
def specContainerHash (pairs : List (String × Nat)) : Nat :=
  specCombine
    (((sortPairsByKey pairs).map (fun p => (specStringHash p.1, p.2))).foldl
      (fun h p => specCombine (specCombine h p.1) p.2) 0) 200

def specArrayOwnPairs (elemHashes : List Nat) : List (String × Nat) :=
  (elemHashes.enum.map (fun p => (toString p.1, p.2))) ++
    [("length", specCombine 106 (specStringHash (toString elemHashes.length)))]

mutual
/-- The spec's structural hash over a JSON-shaped value. -/
def specStructuralHash : JSVal → Nat
  | .jnull => 100
  | .jundef => 101
  | .jbool true => 102
  | .jbool false => 103
  | .jnegzero => specCombine 106 (specStringHash "0")
  | .jint n => specCombine 106 (specStringHash (toString n))
  | .jstr s => specCombine 107 (specStringHash s)
  | .jarr l => specCombine 105 (specContainerHash (specArrayOwnPairs (specElems l)))
  | .jobj fs => specCombine 108 (specContainerHash (specFields fs))
  | .jother r => specCombine 109 (specStringHash r)

def specElems : List JSVal → List Nat
  | [] => []
  | v :: vs => specStructuralHash v :: specElems vs

def specFields : List (String × JSVal) → List (String × Nat)
  | [] => []
  | (k, v) :: fs => (k, specStructuralHash v) :: specFields fs
end

/-! ## Concrete fixtures used by the claim theorems -/

/-- A playset whose state never changes. -/
def trivialPlayset : PlaysetAdvance Unit := fun s _ _ _ _ => s

/-- A playset that records the commands sequence it is handed. -/
def commandsRecorder : PlaysetAdvance (List CommandArg) := fun _ _ commands _ _ => commands

/-- A playset that records the inputs sequence it is handed. -/
def inputsRecorder : PlaysetAdvance (List InputArg) := fun _ _ _ inputs _ => inputs

def emptyMaps (inst : Instance σ) : ServerState σ :=
  { inst := inst
    controllers := []
    liveControllers := []
    inboxControllers := []
    outboxControllers := [] }

/- C1: two same-frame same-serial commands from controllers 3 and 2, received
in that ingress order. -/

def c1ev3 : Event := { k := .o, f := 20, c := 3, o := some "fire", a := some "", s := some 1 }

def c1ev2 : Event := { k := .o, f := 20, c := 2, o := some "fire", a := some "", s := some 1 }

def c1state : ServerState (List CommandArg) := emptyMaps
  { pastHorizonFrameNumber := 20
    pastHorizonPerfTime := 0
    pastHorizonState := []
    pastHorizonControllerStatus := []
    events := [(20, [c1ev3, c1ev2])]
    broadcastControllers := []
    suspended := false }

/-- The controller ids of the commands the playset receives at the advance of
frame 20. -/
def c1commandsSeen : List Int :=
  match advanceHorizonState [] commandsRecorder c1state with
  | .ok st => st.inst.pastHorizonState.map CommandArg.c
  | .error _ => []

/- C2: controller ids 2 and 10 in the status table. -/

def c2state : ServerState (List InputArg) := emptyMaps
  { pastHorizonFrameNumber := 7
    pastHorizonPerfTime := 0
    pastHorizonState := []
    pastHorizonControllerStatus := [(2, { u := "alice", i := "x" }), (10, { u := "bob", i := "y" })]
    events := []
    broadcastControllers := []
    suspended := false }

/-- The inputs sequence the playset receives on the advance. -/
def c2inputsSeen : List InputArg :=
  match advanceHorizonState [] inputsRecorder c2state with
  | .ok st => st.inst.pastHorizonState
  | .error _ => []

/- C3: a rehydrated snapshot with one stored controller. -/

def c3snapshot : InstanceSnapshot Unit :=
  { state := (), controllerStatus := [(5, { u := "alice", i := "" })] }

/-- The outcome of the first advance (consuming the synthesized frame-1
Disconnect) after loading the snapshot. -/
def c3result : Except JsError (ServerState Unit) :=
  advanceHorizonState [] trivialPlayset (loadedServerState 1000 c3snapshot)

/- C4: a LIVE controller that already used serial 1 in this frame window sends
serial 1 again. -/

def c4env : MsgEnv :=
  { inputLengthLimit := 100, argumentLengthLimit := 100, commandRateLimits := [("x", 5)] }

def c4ctrl : Controller :=
  { id := 2, remoteAddress := "addr", lifecycle := .live, username := "alice"
    minFrameNumber := 16, lastCommandNumber := 1, commandRateCounters := [("x", 1)] }

def c4state : ServerState Unit :=
  { inst :=
      { pastHorizonFrameNumber := 1
        pastHorizonPerfTime := 0
        pastHorizonState := ()
        pastHorizonControllerStatus := []
        events := []
        broadcastControllers := [2]
        suspended := false }
    controllers := [(2, c4ctrl)]
    liveControllers := [("alice", 2)]
    inboxControllers := []
    outboxControllers := [] }

def c4msg : Msg := { f := some 16, s := some 1, o := some "x" }

def c4result : HandlerResult Unit := onCommandMessage c4env c4state 2 c4msg

/-- The duplicate-serial command event the source constructs anyway. -/
def c4event : Event :=
  { k := .o, c := 2, f := 16, o := some "x", a := some "", s := some 1 }

/- C5: instance at past horizon 100; the claim's example controller has
min_frame_number 105 and sends frame 95 (below the controller minimum); the
witness controller has min_frame_number 90, so 95 falls between the minimum
and the horizon. -/

def c5ctrl : Controller :=
  { id := 1, remoteAddress := "addr", lifecycle := .live, username := "alice"
    minFrameNumber := 105 }

def c5state : ServerState Unit :=
  { inst :=
      { pastHorizonFrameNumber := 100
        pastHorizonPerfTime := 0
        pastHorizonState := ()
        pastHorizonControllerStatus := []
        events := []
        broadcastControllers := [1]
        suspended := false }
    controllers := [(1, c5ctrl)]
    liveControllers := [("alice", 1)]
    inboxControllers := []
    outboxControllers := [] }

def c5msg : Msg := { f := some 95, i := some "x" }

def c5wctrl : Controller := { c5ctrl with minFrameNumber := 90 }

def c5wstate : ServerState Unit :=
  { c5state with controllers := [(1, c5wctrl)] }

/- C6: an empty-snapshot instance; controller 1 logs in at horizon 1 (so its
minimum becomes frame 16) and then stays idle across 16 advances. -/

def c6users : List (String × String) := [("alice", "cfg")]

def c6st0 : ServerState Unit :=
  let base := loadedServerState 0 (σ := Unit) { state := (), controllerStatus := [] }
  { base with
    inst := unsuspendInstance 0 base.inst
    controllers := [(1, { id := 1, remoteAddress := "addr", lifecycle := .new, username := "alice" })] }

def iterateAdvance (users : List (String × String)) (padv : PlaysetAdvance σ) :
    Nat → Except JsError (ServerState σ) → Except JsError (ServerState σ)
  | 0, st => st
  | n + 1, st => iterateAdvance users padv n (st.bind (advanceHorizonState users padv))

def c6traceResult : Except JsError (ServerState Unit) :=
  iterateAdvance c6users trivialPlayset 16 (makeControllerLive c6users c6st0 1)

/-- Whether the claimed invariant (every LIVE controller has
`min_frame_number ≥ past_horizon_frame`) holds for controller 1 at the end of
the C6 trace. -/
def c6invariantHolds : Bool :=
  match c6traceResult with
  | .ok st =>
    match alookup 1 st.controllers with
    | some c => !(c.lifecycle == .live) || decide (st.inst.pastHorizonFrameNumber ≤ c.minFrameNumber)
    | none => true
  | .error _ => true

/-- A plain pre-login state for the amended-claim witness (its perf-time is a
literal, keeping the witness kernel-evaluable). -/
def c6wstate : ServerState Unit :=
  { inst :=
      { pastHorizonFrameNumber := 1
        pastHorizonPerfTime := 0
        pastHorizonState := ()
        pastHorizonControllerStatus := []
        events := [(1, [])]
        broadcastControllers := []
        suspended := false }
    controllers := [(1, { id := 1, remoteAddress := "addr", lifecycle := .new, username := "alice" })]
    liveControllers := []
    inboxControllers := []
    outboxControllers := [] }

/-- The state after the C6 witness login step. -/
def c6w1 : ServerState Unit :=
  (makeControllerLive c6users c6wstate 1).toOption.getD c6wstate

def dummyController : Controller :=
  { id := 0, remoteAddress := "", lifecycle := .new }

def c6w1ctrl : Controller := (alookup 1 c6w1.controllers).getD dummyController

/- C7: self-serve creation with no selfServeUserLimit configured. -/

def c7result : Except JsError CreateOutcome :=
  onCreateUserMessage id { selfServeUserLimit := none } [] [] "1.2.3.4"
    { u := "alice", p := some "pwd" }

/- C9 witness instances. -/

def w9suspended : Instance Unit :=
  { pastHorizonFrameNumber := 3
    pastHorizonPerfTime := 0
    pastHorizonState := ()
    pastHorizonControllerStatus := []
    events := []
    broadcastControllers := []
    suspended := true }

def w9running : Instance Unit := { w9suspended with suspended := false }

/- C10 witness: a LIVE controller with server-assigned id 7 sends an admitted
frame message and an admitted command message carrying a forged controller-id
field. -/

def w10ctrl : Controller :=
  { id := 7, remoteAddress := "addr", lifecycle := .live, username := "alice"
    minFrameNumber := 16 }

def w10state : ServerState Unit :=
  { inst :=
      { pastHorizonFrameNumber := 1
        pastHorizonPerfTime := 0
        pastHorizonState := ()
        pastHorizonControllerStatus := []
        events := []
        broadcastControllers := [7]
        suspended := false }
    controllers := [(7, w10ctrl)]
    liveControllers := [("alice", 7)]
    inboxControllers := []
    outboxControllers := [] }

def w10frameMsg : Msg := { f := some 16, i := some "x", c := some 99, u := some "mallory" }

def w10cmdMsg : Msg := { f := some 16, s := some 1, o := some "x", c := some 99, u := some "mallory" }

def w10frameMsgAlt : Msg := { w10frameMsg with c := some 123, u := some "eve" }

def w10cmdMsgAlt : Msg := { w10cmdMsg with c := some 123, u := some "eve" }

/-- The event the admitted witness frame message produces. -/
def w10frameEvent : Event := { k := .f, c := 7, f := 16, i := some "x" }

/-- The event the admitted witness command message produces. -/
def w10cmdEvent : Event := { k := .o, c := 7, f := 16, o := some "x", a := some "", s := some 1 }

def w10frameRes : HandlerResult Unit := onFrameMessage c4env w10state 7 w10frameMsg

def w10frameCtrl : Controller := (alookup 7 w10frameRes.st.controllers).getD dummyController

def w10cmdRes : HandlerResult Unit := onCommandMessage c4env w10state 7 w10cmdMsg

def w10cmdCtrl : Controller := (alookup 7 w10cmdRes.st.controllers).getD dummyController

/-! ## Helper lemmas -/

deriving instance DecidableEq for Except

theorem alookup_aset_self [DecidableEq κ] (k : κ) (v : α) (m : List (κ × α)) :
    alookup k (aset k v m) = some v := by
  induction m with
  | nil => simp [aset, alookup]
  | cons p rest ih =>
    obtain ⟨k', v'⟩ := p
    by_cases h : k = k'
    · simp [aset, h, alookup]
    · simp [aset, h, alookup, ih]

@[simp] theorem addInstanceEvent_frame (inst : Instance σ) (ev : Event) :
    (addInstanceEvent inst ev).pastHorizonFrameNumber = inst.pastHorizonFrameNumber := by
  unfold addInstanceEvent
  split <;> rfl

@[simp] theorem broadcastEventToInstance_frame (inst : Instance σ) (ev : Event) :
    (broadcastEventToInstance inst ev).pastHorizonFrameNumber = inst.pastHorizonFrameNumber :=
  addInstanceEvent_frame inst ev

@[simp] theorem storeAndEchoInstanceEvent_frame (inst : Instance σ) (ev : Event) :
    (storeAndEchoInstanceEvent inst ev).pastHorizonFrameNumber = inst.pastHorizonFrameNumber :=
  addInstanceEvent_frame inst ev

@[simp] theorem unsubscribe_frame (inst : Instance σ) (cid : Int) :
    (unsubscribeControllerFromBroadcasts inst cid).pastHorizonFrameNumber =
      inst.pastHorizonFrameNumber := rfl

@[simp] theorem disconnectController_frame (st : ServerState σ) (cid : Int) :
    (disconnectController st cid).inst.pastHorizonFrameNumber =
      st.inst.pastHorizonFrameNumber := by
  unfold disconnectController
  split
  · rfl
  · split
    · simp
    · split
      · rfl
      · split <;> rfl

@[simp] theorem controllerErrorStep_frame (st : ServerState σ) (cid : Int) :
    (controllerErrorStep st cid).inst.pastHorizonFrameNumber =
      st.inst.pastHorizonFrameNumber :=
  disconnectController_frame st cid

/-- What a successful validation implies (source lines 1630-1659): the
controller is LIVE and the accepted frame is at or above both the controller
minimum and the instance's past horizon. -/
theorem validate_ok {ctrl : Controller} {inst : Instance σ} {msg : Msg} {f : Int}
    (h : validateFrameOrCommandMessage ctrl inst msg = .ok f) :
    ctrl.lifecycle = .live ∧
    ctrl.minFrameNumber ≤ f ∧ inst.pastHorizonFrameNumber ≤ f := by
  unfold validateFrameOrCommandMessage at h
  split at h
  case isTrue => exact absurd h (by simp)
  case isFalse hlife =>
    split at h
    · exact absurd h (by simp)
    · split_ifs at h with h1 h2 h3 h4
      all_goals simp at h
      subst h
      rw [not_not] at hlife
      rw [Ne, not_not] at h1
      exact ⟨hlife, by omega, by omega⟩

/-! ## Claim C1 -/

/-- C1 (code bug): the canonical order is documented — by the spec and by the
source's own header comment (lines 914-917) — as kind, then controller id as
integer, then serial; but `instanceEventComparator` (line 2033) compares `.u`,
a field absent on command events, so two same-frame commands with equal
serials from controllers 3 and 2 tie and keep their ingress order: the playset
receives them as [3, 2], not in ascending controller-id order. -/
theorem C1_commands_keep_ingress_order_on_equal_serial :
    c1commandsSeen = [3, 2] ∧ c1commandsSeen ≠ [2, 3] := by decide

/-- C2 counterexample: with controllers 2 and 10 in controller_status, the
inputs handed to the playset list controller "10" before controller "2" — the
property-name strings are sorted lexicographically, not as integers (and the
claimed ascending-integer order would be ["2", "10"]). -/
theorem C2_integer_order_counterexample :
    c2inputsSeen = [{ c := "10", i := "y" }, { c := "2", i := "x" }] ∧
    c2inputsSeen.map InputArg.c ≠ ["2", "10"] := by decide

/-! ## Claim C3 -/

/-- C3 (code bug): after loading a snapshot whose stored controller_status is
non-empty, the advance of frame 1 throws a TypeError instead of completing:
the disconnect loop (source line 2096) reads `.id` off
`outboxControllers[username]`, which is undefined because no OUTBOX session
exists for a rehydrated controller. -/
theorem C3_rehydrated_disconnect_advance_faults :
    c3result = .error .typeError := by decide

/-! ## Claim C4 -/

/-- C4 (code bug): a duplicate-serial command from a LIVE controller draws the
out-of-order `E` error and the connection close, but the source lacks an early
return (lines 1605-1607), so the command event is still constructed, appended
to the frame-16 bucket of the instance's event store, and fanned out. -/
theorem C4_rejected_command_still_stored_and_broadcast :
    c4result.errorSent = some "client sent out-of-order command message" ∧
    c4result.storedEvent = some c4event ∧
    c4event ∈ (alookup (16 : Int) c4result.st.inst.events).getD [] := by decide

/-! ## Claim C5 -/

/-- C5 counterexample: at past horizon 100 with controller min_frame_number
105, a frame message stamped 95 is *not* silently ignored — the min-frame
check runs first (source line 1643), so the server sends the out-of-order `E`
error and closes the connection (the controller moves to OUTBOX). -/
theorem C5_below_min_errors_counterexample :
    (onFrameMessage c4env c5state 1 c5msg).errorSent = some "out-of-order message" ∧
    (alookup 1 (onFrameMessage c4env c5state 1 c5msg).st.controllers).map Controller.lifecycle
      = some .outbox := by decide

/-! ## Claim C6 -/

/-- C6 counterexample: controller 1 becomes LIVE at horizon 1 (its minimum
becomes frame 16) and then stays idle; after 16 advances the horizon is 17
while the still-LIVE controller's minimum is 16, so the claimed invariant
fails on a reachable state. -/
theorem C6_live_min_below_horizon_counterexample :
    c6invariantHolds = false ∧
    c6traceResult.toOption.map (fun st => st.inst.pastHorizonFrameNumber) = some 17 ∧
    c6traceResult.toOption.map
      (fun st => (alookup 1 st.controllers).map Controller.minFrameNumber)
      = some (some 16) := by decide

/-! ## Claim C7 -/

/-- C7 (code bug, flagged by the spec itself as an open question): with no
selfServeUserLimit configured, `selfServeCreateUser` issues the not-authorized
error but does not stop: the user record is created anyway and the per-address
self-serve count is bumped (the `D` success message is not delivered only
because the socket is already closed). -/
theorem C7_self_serve_create_continues_after_error :
    c7result = .ok
      { delivered := [.E "you are not authorized for self-serve user creation"]
        users := [("alice",
          { username := "alice", password := "pwd", config := ""
            admin := false, selfServeAddress := some "1.2.3.4" })]
        selfServeUserCounts := [("1.2.3.4", 1)] } := by decide

/-! ## Claim C9 -/

/-- C9: unsuspending a suspended instance clears the flag and sets
`past_horizon_perf_time` to the maximum of its previous value and
`now − PAST_HORIZON_FRAMES·1000/FPS`, for every prior value; unsuspending an
instance that is not suspended changes nothing. -/
theorem C9_unsuspend_sets_max_perf_time (inst : Instance σ) (now : Rat) :
    (inst.suspended = true →
      (unsuspendInstance now inst).suspended = false ∧
      (unsuspendInstance now inst).pastHorizonPerfTime =
        max inst.pastHorizonPerfTime
          (now - (PAST_HORIZON_FRAMES : Rat) * 1000 / (FPS : Rat))) ∧
    (inst.suspended = false → unsuspendInstance now inst = inst) := by
  constructor
  · intro hs
    simp only [unsuspendInstance, hs, if_true]
    refine ⟨trivial, ?_⟩
    by_cases h :
        now - (PAST_HORIZON_FRAMES : Rat) * 1000 / (FPS : Rat) > inst.pastHorizonPerfTime
    · simp only [if_pos h]
      exact (max_eq_right (le_of_lt h)).symm
    · simp only [if_neg h]
      exact (max_eq_left (not_lt.mp h)).symm
  · intro hs
    simp [unsuspendInstance, hs]

/-! ## Claim C2 -/

theorem integerComparator_nonpos {a b : String} : integerComparator a b ≤ 0 ↔ a ≤ b := by
  unfold integerComparator
  split_ifs with h1 h2
  · exact iff_of_true (by norm_num) (le_of_lt (String.lt_iff_toList_lt.mpr h1))
  · exact iff_of_false (by norm_num) (not_le.mpr (String.lt_iff_toList_lt.mpr h2))
  · exact iff_of_true le_rfl (not_lt.mp (fun h => h2 (String.lt_iff_toList_lt.mp h)))

theorem chain'_le_insertByComp (x : String) :
    ∀ l : List String, l.Chain' (· ≤ ·) →
      (insertByComp integerComparator x l).Chain' (· ≤ ·)
  | [], _ => List.chain'_singleton x
  | y :: ys, h => by
    unfold insertByComp
    split_ifs with hc
    · exact List.chain'_cons.mpr ⟨integerComparator_nonpos.mp hc, h⟩
    · have hyx : y ≤ x :=
        le_of_lt (not_le.mp (fun hxy => hc (integerComparator_nonpos.mpr hxy)))
      have hh := (List.chain'_cons'.mp h).1
      have htail := (List.chain'_cons'.mp h).2
      refine List.chain'_cons'.mpr ⟨?_, chain'_le_insertByComp x ys htail⟩
      intro z hz
      cases ys with
      | nil =>
        simp only [insertByComp, List.head?_cons, Option.mem_def, Option.some.injEq] at hz
        subst hz
        exact hyx
      | cons w ws =>
        unfold insertByComp at hz
        split_ifs at hz
        · simp only [List.head?_cons, Option.mem_def, Option.some.injEq] at hz
          subst hz
          exact hyx
        · simp only [List.head?_cons, Option.mem_def, Option.some.injEq] at hz
          subst hz
          exact hh w (by simp)

theorem chain'_le_sortByComp (l : List String) :
    (sortByComp integerComparator l).Chain' (· ≤ ·) := by
  induction l with
  | nil => simp [sortByComp]
  | cons x xs ih => exact chain'_le_insertByComp x (sortByComp integerComparator xs) ih

/-- C2 amended: on every advance the playset's inputs argument enumerates the
controller-status entries in ascending *lexicographic* order of the decimal
controller-id strings — which coincides with ascending integer order only when
the ids have equal digit counts — for every content of controller_status. -/
theorem C2_inputs_lexicographic_order (status : List (Int × CStatus)) :
    (buildInputs status).Chain' (fun p q => p.c ≤ q.c) := by
  unfold buildInputs
  rw [List.chain'_map]
  exact chain'_le_sortByComp (getOwnPropertyNamesNumeric status)

/-! ## Claim C5, amended -/

/-- C5 amended: a frame or command message from a LIVE controller whose
integral frame stamp lies at or above the controller's min_frame_number but
below the instance's past_horizon_frame is silently discarded: no error is
sent, no event is stored, and the server state is unchanged.  (A frame below
min_frame_number instead draws the out-of-order error and a close, as the
counterexample shows.) -/
theorem C5_silent_drop_between_min_and_horizon (env : MsgEnv) (st : ServerState σ)
    (cid : Int) (ctrl : Controller) (msg : Msg) (f : Int)
    (hc : alookup cid st.controllers = some ctrl)
    (hlife : ctrl.lifecycle = .live)
    (hf : msg.f = some f)
    (hint : f = jsOr0 f)
    (hmin : ctrl.minFrameNumber ≤ f)
    (hlag : f < st.inst.pastHorizonFrameNumber) :
    onFrameMessage env st cid msg = { st := st, errorSent := none, storedEvent := none } ∧
    onCommandMessage env st cid msg = { st := st, errorSent := none, storedEvent := none } := by
  have h15 : PAST_HORIZON_FRAMES = 15 := rfl
  have h45 : FUTURE_HORIZON_FRAMES = 45 := rfl
  have hv : validateFrameOrCommandMessage ctrl st.inst msg = .silent := by
    unfold validateFrameOrCommandMessage getPresentFrameNumber
    simp only [hf]
    split_ifs with g1 g2 g3 g4
    · exact absurd hlife g1
    · exact absurd hint g2
    · exact (by omega : False).elim
    · exact (by omega : False).elim
    · rfl
  refine ⟨?_, ?_⟩ <;> simp only [onFrameMessage, onCommandMessage, hc, hv]

theorem C5_silent_drop_between_min_and_horizon_witness :
    onFrameMessage c4env c5wstate 1 c5msg
      = { st := c5wstate, errorSent := none, storedEvent := none } ∧
    onCommandMessage c4env c5wstate 1 c5msg
      = { st := c5wstate, errorSent := none, storedEvent := none } :=
  C5_silent_drop_between_min_and_horizon c4env c5wstate 1 c5wctrl c5msg 95
    (by decide) rfl rfl (by decide) (by decide) (by decide)

/-! ## Claim C8 -/

theorem specContainerHash_eq (pairs : List (String × Nat)) :
    specContainerHash pairs = recurseContainer pairs := by
  unfold specContainerHash recurseContainer
  rw [List.foldl_map]
  rfl

theorem specArrayOwnPairs_eq (hs : List Nat) : specArrayOwnPairs hs = arrayOwnPairs hs := rfl

mutual

theorem defaultGameStateHash_eq_spec :
    (v : JSVal) → defaultGameStateHash v = specStructuralHash v
  | .jnull => by simp only [defaultGameStateHash, specStructuralHash]
  | .jundef => by simp only [defaultGameStateHash, specStructuralHash]
  | .jbool true => by simp only [defaultGameStateHash, specStructuralHash]
  | .jbool false => by simp only [defaultGameStateHash, specStructuralHash]
  | .jnegzero => by simp only [defaultGameStateHash, specStructuralHash]; rfl
  | .jint n => by simp only [defaultGameStateHash, specStructuralHash]; rfl
  | .jstr s => by simp only [defaultGameStateHash, specStructuralHash]; rfl
  | .jother r => by simp only [defaultGameStateHash, specStructuralHash]; rfl
  | .jarr l => by
    simp only [defaultGameStateHash, specStructuralHash]
    rw [hashElems_eq_spec l, specContainerHash_eq, specArrayOwnPairs_eq]
    rfl
  | .jobj fs => by
    simp only [defaultGameStateHash, specStructuralHash]
    rw [hashFields_eq_spec fs, specContainerHash_eq]
    rfl

theorem hashElems_eq_spec : (l : List JSVal) → hashElems l = specElems l
  | [] => by simp only [hashElems, specElems]
  | v :: vs => by
    simp only [hashElems, specElems]
    rw [defaultGameStateHash_eq_spec v, hashElems_eq_spec vs]

theorem hashFields_eq_spec : (l : List (String × JSVal)) → hashFields l = specFields l
  | [] => by simp only [hashFields, specFields]
  | (k, v) :: fs => by
    simp only [hashFields, specFields]
    rw [defaultGameStateHash_eq_spec v, hashFields_eq_spec fs]

end

/-- C8: the source's default structural hash coincides, on every JSON-shaped
value, with the reference definition transcribed from the spec's words (leaf
values 100-103, negative zero coerced to zero, type prefixes 105-109,
containers over lexicographically sorted own property names with suffix 200,
strings folding character codes with suffix 300, and the stated combine). -/
theorem C8_default_hash_equals_spec_reference (v : JSVal) :
    defaultGameStateHash v = specStructuralHash v :=
  defaultGameStateHash_eq_spec v

/-! ## Claim C6, amended -/

theorem subscribe_frame (inst : Instance σ) (cid : Int) :
    (subscribeControllerToBroadcasts inst cid).pastHorizonFrameNumber =
      inst.pastHorizonFrameNumber := by
  unfold subscribeControllerToBroadcasts
  split <;> rfl

/-- A login (via `makeControllerLive`) establishes the invariant: the
controller comes out LIVE with `min_frame_number = horizon + 15 ≥ horizon`. -/
theorem makeControllerLive_min (users : List (String × String)) (st : ServerState σ)
    (cid : Int) (st' : ServerState σ) (ctrl' : Controller)
    (h : makeControllerLive users st cid = .ok st')
    (hc : alookup cid st'.controllers = some ctrl') :
    ctrl'.lifecycle = .live ∧
    st'.inst.pastHorizonFrameNumber ≤ ctrl'.minFrameNumber := by
  have h15 : PAST_HORIZON_FRAMES = 15 := rfl
  unfold makeControllerLive at h
  split at h
  · exact absurd h (by simp)
  · split at h
    · exact absurd h (by simp)
    · injection h with hst
      subst hst
      simp only [alookup_aset_self, Option.some.injEq] at hc
      subst hc
      refine ⟨rfl, ?_⟩
      simp only [subscribe_frame, broadcastEventToInstance_frame, getPresentFrameNumber]
      omega

/-- An admitted frame message re-establishes the invariant:
`min_frame_number` becomes `f + 1 > f ≥ horizon`. -/
theorem onFrameMessage_min (env : MsgEnv) (st : ServerState σ) (cid : Int) (msg : Msg)
    (ctrl' : Controller)
    (hs : ((onFrameMessage env st cid msg).storedEvent).isSome = true)
    (hc : alookup cid (onFrameMessage env st cid msg).st.controllers = some ctrl') :
    (onFrameMessage env st cid msg).st.inst.pastHorizonFrameNumber ≤
      ctrl'.minFrameNumber := by
  cases h0 : alookup cid st.controllers with
  | none => simp [onFrameMessage, h0] at hs
  | some ctrl =>
    cases hv : validateFrameOrCommandMessage ctrl st.inst msg with
    | err e => simp [onFrameMessage, h0, hv] at hs
    | silent => simp [onFrameMessage, h0, hv] at hs
    | ok f =>
      obtain ⟨hlife, hmin, hhor⟩ := validate_ok hv
      simp only [onFrameMessage, h0, hv] at hs hc ⊢
      split_ifs at hs hc ⊢ with hlen hinp
      · simp at hs
      · simp only [alookup_aset_self, Option.some.injEq] at hc
        subst hc
        simp only [broadcastEventToInstance_frame]
        omega
      · simp only [alookup_aset_self, Option.some.injEq] at hc
        subst hc
        simp only [storeAndEchoInstanceEvent_frame]
        omega

/-- An admitted (error-free) command message re-establishes the invariant:
`min_frame_number` becomes `max(old minimum, f) ≥ f ≥ horizon`. -/
theorem onCommandMessage_min (env : MsgEnv) (st : ServerState σ) (cid : Int) (msg : Msg)
    (ctrl' : Controller)
    (hs : ((onCommandMessage env st cid msg).storedEvent).isSome = true)
    (he : (onCommandMessage env st cid msg).errorSent = none)
    (hc : alookup cid (onCommandMessage env st cid msg).st.controllers = some ctrl') :
    (onCommandMessage env st cid msg).st.inst.pastHorizonFrameNumber ≤
      ctrl'.minFrameNumber := by
  cases h0 : alookup cid st.controllers with
  | none => simp [onCommandMessage, h0] at hs
  | some ctrl =>
    cases hv : validateFrameOrCommandMessage ctrl st.inst msg with
    | err e => simp [onCommandMessage, h0, hv] at hs
    | silent => simp [onCommandMessage, h0, hv] at hs
    | ok f =>
      obtain ⟨hlife, hmin, hhor⟩ := validate_ok hv
      cases hcap : alookup (jsToStr msg.o) env.commandRateLimits with
      | none =>
        simp only [onCommandMessage, h0, hv, hcap] at hs
        split_ifs at hs <;> simp at hs
      | some cap =>
        simp only [onCommandMessage, h0, hv, hcap] at hs he hc ⊢
        by_cases h1 : jsOr0Opt msg.s = 0
        · rw [if_pos h1] at hs
          simp at hs
        rw [if_neg h1] at hs he hc ⊢
        by_cases h2 : (jsStrOrEmpty msg.a).length > env.argumentLengthLimit
        · rw [if_pos h2] at hs
          simp at hs
        rw [if_neg h2] at hs he hc ⊢
        generalize (match alookup (jsToStr msg.o) ctrl.commandRateCounters with
          | some n => decide (n ≥ cap)
          | none => false : Bool) = hitCap at hs he hc ⊢
        cases hitCap with
        | true =>
          rw [if_pos rfl] at hs
          simp at hs
        | false =>
          rw [if_neg (by decide)] at hs he hc ⊢
          by_cases h4 : f > ctrl.minFrameNumber
          · rw [if_pos h4] at hs he hc ⊢
            try dsimp only at hs
            try dsimp only at he
            try dsimp only at hc
            try dsimp only
            by_cases h5 : jsOr0Opt msg.s ≤ (0 : Int)
            · rw [if_pos h5] at he
              simp at he
            · rw [if_neg h5] at he hc ⊢
              rw [if_neg (show ¬((none : Option String).isSome = true) by simp)] at hc ⊢
              try dsimp only at hc
              try dsimp only
              simp only [alookup_aset_self, Option.getD_some, Option.some.injEq] at hc
              subst hc
              try dsimp only
              simp only [broadcastEventToInstance_frame]
              try dsimp only
              omega
          · rw [if_neg h4] at hs he hc ⊢
            by_cases h5 : jsOr0Opt msg.s ≤ ctrl.lastCommandNumber
            · rw [if_pos h5] at he
              simp at he
            · rw [if_neg h5] at he hc ⊢
              rw [if_neg (show ¬((none : Option String).isSome = true) by simp)] at hc ⊢
              try dsimp only at hc
              try dsimp only
              simp only [alookup_aset_self, Option.getD_some, Option.some.injEq] at hc
              subst hc
              try dsimp only
              simp only [broadcastEventToInstance_frame]
              try dsimp only
              omega

/-- C6 amended: `min_frame_number ≥ past_horizon_frame` is not an invariant of
every reachable state — the counterexample shows an idle LIVE controller whose
minimum falls below an advancing horizon — but the bound is established
whenever a controller becomes LIVE and is re-established by every admitted
frame message and every error-free admitted command message. -/
theorem C6_min_frame_reestablished_by_operations :
    (∀ {σ : Type} (users : List (String × String)) (st st' : ServerState σ)
       (cid : Int) (ctrl' : Controller),
       makeControllerLive users st cid = .ok st' →
       alookup cid st'.controllers = some ctrl' →
       ctrl'.lifecycle = .live ∧
       st'.inst.pastHorizonFrameNumber ≤ ctrl'.minFrameNumber) ∧
    (∀ {σ : Type} (env : MsgEnv) (st : ServerState σ) (cid : Int) (msg : Msg)
       (ctrl' : Controller),
       ((onFrameMessage env st cid msg).storedEvent).isSome = true →
       alookup cid (onFrameMessage env st cid msg).st.controllers = some ctrl' →
       (onFrameMessage env st cid msg).st.inst.pastHorizonFrameNumber ≤
         ctrl'.minFrameNumber) ∧
    (∀ {σ : Type} (env : MsgEnv) (st : ServerState σ) (cid : Int) (msg : Msg)
       (ctrl' : Controller),
       ((onCommandMessage env st cid msg).storedEvent).isSome = true →
       (onCommandMessage env st cid msg).errorSent = none →
       alookup cid (onCommandMessage env st cid msg).st.controllers = some ctrl' →
       (onCommandMessage env st cid msg).st.inst.pastHorizonFrameNumber ≤
         ctrl'.minFrameNumber) :=
  ⟨fun users st st' cid ctrl' h hc => makeControllerLive_min users st cid st' ctrl' h hc,
   fun env st cid msg ctrl' hs hc => onFrameMessage_min env st cid msg ctrl' hs hc,
   fun env st cid msg ctrl' hs he hc => onCommandMessage_min env st cid msg ctrl' hs he hc⟩

theorem C6_min_frame_reestablished_by_operations_witness :
    (c6w1ctrl.lifecycle = .live ∧
      c6w1.inst.pastHorizonFrameNumber ≤ c6w1ctrl.minFrameNumber) ∧
    w10frameRes.st.inst.pastHorizonFrameNumber ≤ w10frameCtrl.minFrameNumber ∧
    w10cmdRes.st.inst.pastHorizonFrameNumber ≤ w10cmdCtrl.minFrameNumber :=
  ⟨C6_min_frame_reestablished_by_operations.1 c6users c6wstate c6w1 1 c6w1ctrl
     (by decide) (by decide),
   C6_min_frame_reestablished_by_operations.2.1 c4env w10state 7 w10frameMsg
     w10frameCtrl (by decide) (by decide),
   C6_min_frame_reestablished_by_operations.2.2 c4env w10state 7 w10cmdMsg
     w10cmdCtrl (by decide) (by decide) (by decide)⟩

/-! ## Claim C10 -/

theorem onFrameMessage_stored_c (env : MsgEnv) (st : ServerState σ) (cid : Int)
    (msg : Msg) (ctrl : Controller) (ev : Event)
    (h0 : alookup cid st.controllers = some ctrl)
    (hev : (onFrameMessage env st cid msg).storedEvent = some ev) :
    ev.c = ctrl.id := by
  cases hv : validateFrameOrCommandMessage ctrl st.inst msg with
  | err e => simp [onFrameMessage, h0, hv] at hev
  | silent => simp [onFrameMessage, h0, hv] at hev
  | ok f =>
    simp only [onFrameMessage, h0, hv] at hev
    split_ifs at hev with hlen hinp
    all_goals dsimp only at hev
    all_goals simp only [Option.some.injEq] at hev
    all_goals cases hev
    all_goals rfl

theorem onCommandMessage_stored_c (env : MsgEnv) (st : ServerState σ) (cid : Int)
    (msg : Msg) (ctrl : Controller) (ev : Event)
    (h0 : alookup cid st.controllers = some ctrl)
    (hev : (onCommandMessage env st cid msg).storedEvent = some ev) :
    ev.c = ctrl.id := by
  cases hv : validateFrameOrCommandMessage ctrl st.inst msg with
  | err e => simp [onCommandMessage, h0, hv] at hev
  | silent => simp [onCommandMessage, h0, hv] at hev
  | ok f =>
    cases hcap : alookup (jsToStr msg.o) env.commandRateLimits with
    | none =>
      simp only [onCommandMessage, h0, hv, hcap] at hev
      split_ifs at hev
    | some cap =>
      simp only [onCommandMessage, h0, hv, hcap] at hev
      by_cases h1 : jsOr0Opt msg.s = 0
      · rw [if_pos h1] at hev
        simp at hev
      rw [if_neg h1] at hev
      by_cases h2 : (jsStrOrEmpty msg.a).length > env.argumentLengthLimit
      · rw [if_pos h2] at hev
        simp at hev
      rw [if_neg h2] at hev
      generalize (match alookup (jsToStr msg.o) ctrl.commandRateCounters with
        | some n => decide (n ≥ cap)
        | none => false : Bool) = hitCap at hev
      cases hitCap with
      | true =>
        rw [if_pos rfl] at hev
        simp at hev
      | false =>
        rw [if_neg (by decide)] at hev
        dsimp only at hev
        simp only [Option.some.injEq] at hev
        cases hev
        rfl

/-- C10: the event the server stores and broadcasts for an admitted frame or
command message carries `.c` equal to the server-assigned id of the sending
controller, and the handlers never read a controller-id or username field off
the client's message: two inbound messages differing only in those fields
yield identical handler outcomes. -/
theorem C10_event_controller_id_is_server_assigned (env : MsgEnv)
    (st : ServerState σ) (cid : Int) (f : Option Int) (i : Option String)
    (s : Option Int) (o : Option String) (a : Option String)
    (c₁ c₂ : Option Int) (u₁ u₂ : Option String) :
    onFrameMessage env st cid { f := f, i := i, s := s, o := o, a := a, c := c₁, u := u₁ }
      = onFrameMessage env st cid { f := f, i := i, s := s, o := o, a := a, c := c₂, u := u₂ } ∧
    onCommandMessage env st cid { f := f, i := i, s := s, o := o, a := a, c := c₁, u := u₁ }
      = onCommandMessage env st cid { f := f, i := i, s := s, o := o, a := a, c := c₂, u := u₂ } ∧
    (∀ (ctrl : Controller) (ev : Event),
       alookup cid st.controllers = some ctrl →
       (onFrameMessage env st cid
         { f := f, i := i, s := s, o := o, a := a, c := c₁, u := u₁ }).storedEvent
         = some ev →
       ev.c = ctrl.id) ∧
    (∀ (ctrl : Controller) (ev : Event),
       alookup cid st.controllers = some ctrl →
       (onCommandMessage env st cid
         { f := f, i := i, s := s, o := o, a := a, c := c₁, u := u₁ }).storedEvent
         = some ev →
       ev.c = ctrl.id) :=
  ⟨rfl, rfl,
   fun ctrl ev h0 hev => onFrameMessage_stored_c env st cid _ ctrl ev h0 hev,
   fun ctrl ev h0 hev => onCommandMessage_stored_c env st cid _ ctrl ev h0 hev⟩

theorem C10_event_controller_id_is_server_assigned_witness :
    onFrameMessage c4env w10state 7 w10frameMsg
      = onFrameMessage c4env w10state 7 w10frameMsgAlt ∧
    onCommandMessage c4env w10state 7 w10cmdMsg
      = onCommandMessage c4env w10state 7 w10cmdMsgAlt ∧
    w10frameEvent.c = w10ctrl.id ∧
    w10cmdEvent.c = w10ctrl.id := by
  have h1 := C10_event_controller_id_is_server_assigned c4env w10state 7
    (some 16) (some "x") none none none (some 99) (some 123) (some "mallory") (some "eve")
  have h2 := C10_event_controller_id_is_server_assigned c4env w10state 7
    (some 16) none (some 1) (some "x") none (some 99) (some 123) (some "mallory") (some "eve")
  exact ⟨h1.1, h2.2.1,
    h1.2.2.1 w10ctrl w10frameEvent (by decide) (by decide),
    h2.2.2.2 w10ctrl w10cmdEvent (by decide) (by decide)⟩

theorem C9_unsuspend_sets_max_perf_time_witness :
    (unsuspendInstance 1000 w9suspended).suspended = false ∧
    (unsuspendInstance 1000 w9suspended).pastHorizonPerfTime =
      max w9suspended.pastHorizonPerfTime
        (1000 - (PAST_HORIZON_FRAMES : Rat) * 1000 / (FPS : Rat)) ∧
    unsuspendInstance 1000 w9running = w9running :=
  ⟨((C9_unsuspend_sets_max_perf_time w9suspended 1000).1 rfl).1,
   ((C9_unsuspend_sets_max_perf_time w9suspended 1000).1 rfl).2,
   (C9_unsuspend_sets_max_perf_time w9running 1000).2 rfl⟩

end Okay
